import Mathlib

/-!
Verification of the Merak checkpoint coordination layer
(`src/Merak/utils/checkpoint.py`) against its natural-language
specification.  The Python functions are shallowly embedded as Lean
definitions: pure string/path construction becomes string functions, the
process-wide checkpoint-version global becomes explicit state passing,
fatal exits (`sys.exit`, failed `assert`, uncaught `KeyError`) become the
`Except.error` constructor, and the collective max-reduction of
`read_metadata` is modelled by passing the vector of per-rank local
values explicitly.
-/

namespace Merak

/-! ### Decimal text, modelling Python `str(n)` and `'{:0Nd}'.format(n)` -/

/-- The character for a single decimal digit `d < 10` (Python digit chars). -/
def digitCharOf (d : ℕ) : Char := Char.ofNat (48 + d)

/-- Fuel-based decimal printer; `fuel ≥ n` always suffices because a number
has no more decimal digits than its own value. -/
def natDecimalAux : ℕ → ℕ → List Char
  | 0, n => [digitCharOf n]
  | fuel + 1, n =>
    if n < 10 then [digitCharOf n]
    else natDecimalAux fuel (n / 10) ++ [digitCharOf (n % 10)]

/-- Decimal digit characters of `n`, most significant first; the embedding of
Python `str(n)` for a non-negative integer (never empty, no sign, no leading
zeros except for `str(0) = "0"`). -/
def natDecimal (n : ℕ) : List Char := natDecimalAux n n

theorem natDecimalAux_congr :
    ∀ (f₁ f₂ n : ℕ), n ≤ f₁ → n ≤ f₂ → natDecimalAux f₁ n = natDecimalAux f₂ n := by
  intro f₁
  induction f₁ with
  | zero =>
    intro f₂ n h₁ h₂
    interval_cases n
    cases f₂ with
    | zero => rfl
    | succ f => simp [natDecimalAux]
  | succ f ih =>
    intro f₂ n h₁ h₂
    cases f₂ with
    | zero =>
      interval_cases n
      simp [natDecimalAux]
    | succ g =>
      simp only [natDecimalAux]
      by_cases hn : n < 10
      · simp [hn]
      · simp only [hn, if_false]
        have hlt : n / 10 < n := Nat.div_lt_self (by omega) (by omega)
        have hdf : n / 10 ≤ f := by omega
        have hdg : n / 10 ≤ g := by omega
        rw [ih g (n / 10) hdf hdg]

/-- The recurrence that `natDecimal` satisfies, mirroring repeated
division by ten. -/
theorem natDecimal_unfold (n : ℕ) :
    natDecimal n =
      if n < 10 then [digitCharOf n]
      else natDecimal (n / 10) ++ [digitCharOf (n % 10)] := by
  unfold natDecimal
  cases n with
  | zero => simp [natDecimalAux]
  | succ k =>
    rw [natDecimalAux]
    by_cases h : k + 1 < 10
    · simp [h]
    · simp only [h, if_false]
      congr 1
      have hlt : (k + 1) / 10 < k + 1 := Nat.div_lt_self (by omega) (by omega)
      have hle : (k + 1) / 10 ≤ k := by omega
      exact natDecimalAux_congr k ((k + 1) / 10) ((k + 1) / 10) hle le_rfl

/-- Left-pad a character list with `'0'` up to width `w`; together with
`natDecimal` this embeds Python `'{:0wd}'.format(n)`. -/
def zeroPad (w : ℕ) (l : List Char) : List Char :=
  List.replicate (w - l.length) '0' ++ l

/-- Python `str(n)` for a natural number. -/
def pyStr (n : ℕ) : String := ⟨natDecimal n⟩

/-- Python `'{:0wd}'.format(n)` for a natural number. -/
def pyFormat (w n : ℕ) : String := ⟨zeroPad w (natDecimal n)⟩

/-- Decimal digit character test (`'0'` through `'9'`). -/
def isDigitChar (c : Char) : Bool := 48 ≤ c.toNat && c.toNat ≤ 57

/-- Value of a list of decimal digit characters, most significant first. -/
def decDigits (l : List Char) : ℕ :=
  l.foldl (fun a c => 10 * a + (c.toNat - 48)) 0

theorem digitCharOf_toNat {d : ℕ} (h : d < 10) : (digitCharOf d).toNat = 48 + d := by
  interval_cases d <;> rfl

theorem digitCharOf_isDigit {d : ℕ} (h : d < 10) : isDigitChar (digitCharOf d) = true := by
  interval_cases d <;> rfl

theorem natDecimal_ne_nil (n : ℕ) : natDecimal n ≠ [] := by
  rw [natDecimal_unfold]
  split <;> simp

theorem natDecimal_all_digits (n : ℕ) : ∀ c ∈ natDecimal n, isDigitChar c = true := by
  induction n using Nat.strong_induction_on with
  | _ n ih =>
    rw [natDecimal_unfold]
    split
    · intro c hc
      simp only [List.mem_singleton] at hc
      subst hc
      exact digitCharOf_isDigit (by omega)
    · intro c hc
      rcases List.mem_append.mp hc with h1 | h2
      · exact ih (n / 10) (Nat.div_lt_self (by omega) (by omega)) c h1
      · simp only [List.mem_singleton] at h2
        subst h2
        exact digitCharOf_isDigit (Nat.mod_lt _ (by omega))

theorem decDigits_append_singleton (l : List Char) (c : Char) :
    decDigits (l ++ [c]) = 10 * decDigits l + (c.toNat - 48) := by
  simp [decDigits, List.foldl_append]

theorem decDigits_natDecimal (n : ℕ) : decDigits (natDecimal n) = n := by
  induction n using Nat.strong_induction_on with
  | _ n ih =>
    rw [natDecimal_unfold]
    split
    · rename_i h
      simp [decDigits, digitCharOf_toNat h]
    · rename_i h
      rw [decDigits_append_singleton, ih (n / 10) (Nat.div_lt_self (by omega) (by omega)),
        digitCharOf_toNat (Nat.mod_lt _ (by omega))]
      omega

theorem decDigits_replicate_zero (k : ℕ) (l : List Char) :
    decDigits (List.replicate k '0' ++ l) = decDigits l := by
  induction k with
  | zero => simp
  | succ k ih =>
    rw [List.replicate_succ, List.cons_append]
    simpa [decDigits] using ih

theorem decDigits_zeroPad (w n : ℕ) : decDigits (zeroPad w (natDecimal n)) = n := by
  rw [zeroPad, decDigits_replicate_zero, decDigits_natDecimal]

theorem zeroPad_natDecimal_injective {w a b : ℕ}
    (h : zeroPad w (natDecimal a) = zeroPad w (natDecimal b)) : a = b := by
  have := congrArg decDigits h
  rwa [decDigits_zeroPad, decDigits_zeroPad] at this

theorem pyFormat_injective {w a b : ℕ} (h : pyFormat w a = pyFormat w b) : a = b := by
  have hd : zeroPad w (natDecimal a) = zeroPad w (natDecimal b) := congrArg String.data h
  exact zeroPad_natDecimal_injective hd

/-! ### Python `str.strip` and `int(...)` on tracker-file content -/

/-- Whitespace in the sense of Python `str.strip()` (the characters relevant
to one-line tracker files). -/
def isPySpace (c : Char) : Bool := c = ' ' || c = '\t' || c = '\n' || c = '\r'

/-- Embedding of Python `s.strip()`: drop leading and trailing whitespace. -/
def pyStrip (s : String) : String :=
  ⟨((s.data.dropWhile isPySpace).reverse.dropWhile isPySpace).reverse⟩

/-- Parse a non-empty all-digit character list as a natural number. -/
def parseDigits (l : List Char) : Option ℕ :=
  if l ≠ [] ∧ l.all isDigitChar then some (decDigits l) else none

/-- Embedding of Python `int(s)` on an already-stripped string: an optional
sign followed by decimal digits; anything else raises `ValueError`,
modelled as `none`. -/
def pyInt (s : String) : Option ℤ :=
  match s.data with
  | [] => none
  | c :: rest =>
    if c = '-' then (parseDigits rest).map (fun n => -(n : ℤ))
    else if c = '+' then (parseDigits rest).map (fun n => (n : ℤ))
    else (parseDigits (c :: rest)).map (fun n => (n : ℤ))

theorem isPySpace_false_of_digit {c : Char} (h : isDigitChar c = true) :
    isPySpace c = false := by
  cases hx : isPySpace c
  · rfl
  · exfalso
    have hb : 48 ≤ c.toNat ∧ c.toNat ≤ 57 := by simpa [isDigitChar] using h
    have hmem : ((c = ' ' ∨ c = '\t') ∨ c = '\n') ∨ c = '\r' := by
      simpa [isPySpace] using hx
    rcases hmem with ((rfl | rfl) | rfl) | rfl <;> exact absurd hb (by decide)

theorem dropWhile_eq_self_of_digits {l : List Char}
    (h : ∀ c ∈ l, isDigitChar c = true) : l.dropWhile isPySpace = l := by
  cases l with
  | nil => rfl
  | cons c t =>
    rw [List.dropWhile_cons]
    have hc := h c (List.mem_cons_self c t)
    simp [isPySpace_false_of_digit hc]

theorem pyStrip_digits {l : List Char} (h : ∀ c ∈ l, isDigitChar c = true) :
    pyStrip ⟨l⟩ = ⟨l⟩ := by
  unfold pyStrip
  rw [dropWhile_eq_self_of_digits h,
    dropWhile_eq_self_of_digits (by intro c hc; exact h c (List.mem_reverse.mp hc)),
    List.reverse_reverse]

theorem pyInt_natDecimal (n : ℕ) : pyInt ⟨natDecimal n⟩ = some (n : ℤ) := by
  unfold pyInt
  have hall := natDecimal_all_digits n
  rcases hne : natDecimal n with _ | ⟨c, rest⟩
  · exact absurd hne (natDecimal_ne_nil n)
  · have hc : isDigitChar c = true := by
      rw [hne] at hall
      exact hall c (List.mem_cons_self c rest)
    have hcm : c ≠ '-' := by
      intro hcontra
      rw [hcontra] at hc
      exact absurd hc (by decide)
    have hcp : c ≠ '+' := by
      intro hcontra
      rw [hcontra] at hc
      exact absurd hc (by decide)
    simp only [hcm, hcp, if_false]
    have hvals : parseDigits (c :: rest) = some (decDigits (c :: rest)) := by
      unfold parseDigits
      rw [if_pos]
      constructor
      · simp
      · rw [List.all_eq_true]
        intro x hx
        rw [hne] at hall
        exact hall x hx
    rw [hvals]
    have : decDigits (c :: rest) = n := by
      rw [← hne]
      exact decDigits_natDecimal n
    simp [this]

/-! ### Parallel topology (the `mpu` accessors consumed by checkpoint.py) -/

/-- The slice of the `mpu` topology interface that `checkpoint.py` reads:
`get_pipe_parallel_world_size`, `get_tensor_model_parallel_rank`,
`get_model_parallel_rank` and `get_pipe_parallel_rank`. -/
structure RankTopology where
  pipeParallelWorldSize : ℕ
  tensorModelParallelRank : ℕ
  modelParallelRank : ℕ
  pipeParallelRank : ℕ
deriving DecidableEq

/-- Embedding of `os.path.join` for the two-argument calls in checkpoint.py. -/
def osPathJoin (a b : String) : String := a ++ "/" ++ b

/-- Translation of `get_checkpoint_name` (checkpoint.py lines 44-74): the
unified checkpoint path for one rank. -/
def get_checkpoint_name (topo : RankTopology) (checkpoints_path : String)
    (iteration : ℕ) (release complete : Bool) : String :=
  let directory := if release then "release" else "iter_" ++ pyFormat 7 iteration
  if topo.pipeParallelWorldSize = 1 then
    if complete then
      osPathJoin (osPathJoin checkpoints_path
        ("iter_" ++ pyFormat 7 iteration ++ "_mp_rank_" ++
          pyFormat 2 topo.tensorModelParallelRank))
        "complete_model_optim.pt"
    else
      osPathJoin (osPathJoin (osPathJoin checkpoints_path directory)
        ("mp_rank_" ++ pyFormat 2 topo.tensorModelParallelRank))
        "model_optim_rng.pt"
  else
    if complete then
      osPathJoin (osPathJoin (osPathJoin checkpoints_path directory)
        ("iter_" ++ pyFormat 7 iteration ++ "_mp_rank_" ++
          pyFormat 2 topo.modelParallelRank ++ "_pp_rank_" ++
          pyFormat 3 topo.pipeParallelRank))
        "complete_model_optim.pt"
    else
      osPathJoin (osPathJoin (osPathJoin checkpoints_path directory)
        ("mp_rank_" ++ pyFormat 2 topo.modelParallelRank ++ "_pp_rank_" ++
          pyFormat 3 topo.pipeParallelRank))
        "model_optim_rng.pt"

/-- Translation of `get_checkpoint_tracker_filename` (lines 97-100). -/
def get_checkpoint_tracker_filename (checkpoints_path : String) : String :=
  osPathJoin checkpoints_path "latest_checkpointed_iteration.txt"

/-! ### Tracker read/write and cross-rank reconciliation -/

/-- The text that `save_checkpoint` writes to the tracker file
(line 195: `f.write(str(iteration))`). -/
def save_tracker_content (iteration : ℕ) : String := pyStr iteration

/-- Fatal message of the `assert iteration > 0 or release` in `read_metadata`
(line 118). -/
def trackerAssertMsg : String := "error parsing metadata file"

/-- Fatal message of the invalid-metadata `sys.exit` in `read_metadata`
(lines 115-117). -/
def trackerInvalidMsg : String := "ERROR: Invalid metadata file. Exiting"

/-- Local phase of `read_metadata` (lines 106-119): parse the stripped
tracker content; an integer gives the iteration, the literal "release"
marks a release checkpoint, anything else is a fatal exit, and a parsed
iteration that is not positive fails the assertion. -/
def read_metadata_local (content : String) : Except String (ℕ × Bool) :=
  let metastring := pyStrip content
  match pyInt metastring with
  | some i =>
    if 0 < i then Except.ok (i.toNat, false) else Except.error trackerAssertMsg
  | none =>
    if metastring = "release" then Except.ok (0, true)
    else Except.error trackerInvalidMsg

/-- The collective `all_reduce(..., ReduceOp.MAX)` of `read_metadata`
(lines 122-124) over the per-rank local iteration values. -/
def reconcile_max (iters : List ℕ) : ℕ := iters.foldr max 0

/-- Result of `read_metadata` on one rank: the reconciled iteration, the
release flag, and whether this rank printed the replaced-iteration
warning (lines 129-133). -/
structure MetaResult where
  iteration : ℕ
  release : Bool
  warned : Bool
deriving DecidableEq

/-- Translation of `read_metadata` (lines 103-134) for one rank.
`allIters` is the vector of local iteration values contributed by the
ranks to the collective max-reduction (this rank's own parsed value
among them). -/
def read_metadata (content : String) (allIters : List ℕ) :
    Except String MetaResult :=
  match read_metadata_local content with
  | Except.error e => Except.error e
  | Except.ok (iteration, release) =>
    let maxIter := reconcile_max allIters
    Except.ok ⟨maxIter, release, iteration != maxIter⟩

/-! ### Checkpoint version global -/

/-- The run-configuration object: the attributes of `args` that
checkpoint.py reads or writes, plus representative structural model
fields (`hidden_size`, `num_layers`) for the configuration snapshot. -/
structure TrainingArgs where
  output_dir : String
  resume_from_checkpoint : String
  no_save_optim : Bool
  no_save_rng : Bool
  finetune : Bool
  no_load_optim : Bool
  no_load_rng : Bool
  consumed_train_samples : ℕ
  consumed_valid_samples : ℕ
  hidden_size : ℕ
  num_layers : ℕ
deriving DecidableEq

/-- A Python value stored in a checkpoint state dict: a run-configuration
snapshot, a number, an opaque external state blob, or the
rng-tracker-states mapping. -/
inductive PyVal where
  | vargs (a : TrainingArgs)
  | vnum (q : ℚ)
  | vblob (tag : String) (id : ℕ)
  | vmap (entries : List (String × ℕ))
deriving DecidableEq

/-- Python truthiness of the values above (`if not state_dict[...]`). -/
def pyTruthy : PyVal → Bool
  | PyVal.vargs _ => true
  | PyVal.vnum q => q != 0
  | PyVal.vblob _ _ => true
  | PyVal.vmap m => !m.isEmpty

/-- Translation of `set_checkpoint_version` (lines 33-38): the process-wide
`_CHECKPOINT_VERSION` global becomes explicit state; the failed `assert`
becomes an error. -/
def set_checkpoint_version (current : Option PyVal) (value : PyVal) :
    Except String (Option PyVal) :=
  match current with
  | some v =>
    if v = value then Except.ok (some value)
    else Except.error "checkpoint versions do not match"
  | none => Except.ok (some value)

/-! ### Configuration cross-validation -/

/-- Translation of the inner `_compare` helper of `check_checkpoint_args`
(lines 86-95): compare one named field of the snapshot against the
current run configuration; inequality is a failed assertion. -/
def compare_arg (arg_name : String) (checkpoint_value args_value : ℕ) :
    Except String Unit :=
  if checkpoint_value = args_value then Except.ok ()
  else Except.error (arg_name ++
    " value from checkpoint is not equal to the input argument value.")

/-- Translation of `check_checkpoint_args` (lines 82-95).  The source body
only defines the `_compare` helper and never applies it to any field, so
the function performs no comparison and always returns successfully. -/
def check_checkpoint_args (checkpoint_args args : TrainingArgs) :
    Except String Unit :=
  Except.ok ()

/-! ### The checkpoint state dict written by `save_checkpoint` -/

/-- A checkpoint blob: a Python dict in insertion order. -/
def StateDict : Type := List (String × PyVal)

instance : DecidableEq StateDict := inferInstanceAs (DecidableEq (List (String × PyVal)))

/-- Key lookup in a state dict (`state_dict[key]` / `state_dict.get`). -/
def StateDict.lookup (sd : StateDict) (key : String) : Option PyVal :=
  List.lookup key sd

/-- Translation of the state-dict assembly of `save_checkpoint`
(lines 148-169): the always-present entries, then the optimizer/LR
entries unless `no_save_optim`, then the RNG bundle unless `no_save_rng`.
`optimizerState`/`lrSchedulerState` are `none` when the corresponding
object is Python `None` (the `is not None` guards). -/
def save_state_dict (args : TrainingArgs) (iteration epoch : ℕ)
    (modelState : PyVal) (optimizerState lrSchedulerState : Option PyVal)
    (randomRng npRng torchRng cudaRng : PyVal)
    (rngTracker : List (String × ℕ)) : StateDict :=
  [("args", PyVal.vargs args),
   ("checkpoint_version", PyVal.vnum 3),
   ("iteration", PyVal.vnum iteration),
   ("model", modelState),
   ("epoch", PyVal.vnum epoch)]
  ++ (if args.no_save_optim then []
      else
        (match optimizerState with
         | some o => [("optimizer", o)]
         | none => [])
        ++ (match lrSchedulerState with
            | some l => [("lr_scheduler", l)]
            | none => []))
  ++ (if args.no_save_rng then []
      else
        [("random_rng_state", randomRng),
         ("np_rng_state", npRng),
         ("torch_rng_state", torchRng),
         ("cuda_rng_state", cudaRng),
         ("rng_tracker_states", PyVal.vmap rngTracker)])

/-! ### `load_checkpoint` -/

/-- The two shapes of value that `load_checkpoint` returns: the bare
integer of the fresh-start branch (line 221: `return 0`) and the pair of
the successful-resume branch (line 323: `return iteration, epoch`). -/
inductive LoadRet where
  | intOnly (v : PyVal)
  | pair (iteration : PyVal) (epoch : PyVal)
deriving DecidableEq

/-- Environment that `load_checkpoint` observes: the tracker file, the
values contributed to the tracker max-reduction, the deserialized blob at
the computed checkpoint path (`none` = `torch.load` failure), whether the
caller passed an optimizer and an LR scheduler, the `_CHECKPOINT_VERSION`
global at entry, and the rank topology. -/
structure LoadEnv where
  trackerExists : Bool
  trackerContent : String
  allIters : List ℕ
  blob : Option StateDict
  haveOptimizer : Bool
  haveLrScheduler : Bool
  priorVersion : Option PyVal
  topo : RankTopology

/-- Observable outcome of a non-fatal `load_checkpoint` run: the returned
value, the warnings printed, the `_CHECKPOINT_VERSION` global at exit,
and the (possibly updated) run configuration. -/
structure LoadOutcome where
  ret : LoadRet
  warnings : List String
  version : Option PyVal
  args : TrainingArgs

/-- Warning printed when the tracker file is absent (lines 217-220). -/
def noMetadataWarning : String :=
  "WARNING: could not find the metadata file; will not load any checkpoints and will start from random"

/-- Warning printed when the blob has no configuration snapshot (line 273). -/
def noArgsWarning : String := "could not find arguments in the checkpoint ..."

/-- Fatal message when `torch.load` fails (lines 235-238). -/
def loadFailMsg : String := "could not load the checkpoint"

/-- Fatal uncaught `KeyError` of `state_dict['epoch']` (line 244). -/
def epochKeyErrorMsg : String := "KeyError: epoch"

/-- Fatal exit when neither `iteration` nor `total_iters` is in the blob
(lines 256-259). -/
def iterationExitMsg : String :=
  "A metadata file exists but unable to load iteration from checkpoint, exiting"

/-- Fatal uncaught `KeyError` of `state_dict['model']` (line 276). -/
def modelKeyErrorMsg : String := "KeyError: model"

/-- The remediation message of the optimizer `except KeyError` branch
(lines 291-294). -/
def optimRemediationMsg (checkpoint_name : String) : String :=
  "Unable to load optimizer from checkpoint " ++ checkpoint_name ++
  ". Specify --no-load-optim or --finetune to prevent attempting to load the optimizer state, exiting ..."

/-- The remediation message of the rng `except KeyError` branch
(lines 310-313). -/
def rngRemediationMsg (checkpoint_name : String) : String :=
  "Unable to load rng state from checkpoint " ++ checkpoint_name ++
  ". Specify --no-load-rng or --finetune to prevent attempting to load the rng state, exiting ..."

/-- Translation of the optimizer/LR restore step of `load_checkpoint`
(lines 284-295): inside one `try`, a missing `optimizer` key (when an
optimizer was passed) or a missing `lr_scheduler` key (when an LR
scheduler was passed) raises `KeyError`, caught as the fatal remediation
message. -/
def load_optim_step (release finetune no_load_optim haveOptimizer haveLrScheduler : Bool)
    (state_dict : StateDict) (checkpoint_name : String) : Except String Unit :=
  if !release && !finetune && !no_load_optim then
    if haveOptimizer && (state_dict.lookup "optimizer").isNone then
      Except.error (optimRemediationMsg checkpoint_name)
    else if haveLrScheduler && (state_dict.lookup "lr_scheduler").isNone then
      Except.error (optimRemediationMsg checkpoint_name)
    else Except.ok ()
  else Except.ok ()

/-- Translation of the RNG restore step of `load_checkpoint`
(lines 298-314): inside one `try`, a missing key among the four RNG
sources raises `KeyError`; a present but falsy (empty)
`rng_tracker_states` raises `KeyError` explicitly (lines 304-306); all
are caught as the same fatal remediation message. -/
def load_rng_step (release finetune no_load_rng : Bool)
    (state_dict : StateDict) (checkpoint_name : String) : Except String Unit :=
  if !release && !finetune && !no_load_rng then
    if (state_dict.lookup "random_rng_state").isNone
        || (state_dict.lookup "np_rng_state").isNone
        || (state_dict.lookup "torch_rng_state").isNone
        || (state_dict.lookup "cuda_rng_state").isNone then
      Except.error (rngRemediationMsg checkpoint_name)
    else
      match state_dict.lookup "rng_tracker_states" with
      | none => Except.error (rngRemediationMsg checkpoint_name)
      | some v =>
        if pyTruthy v then Except.ok ()
        else Except.error (rngRemediationMsg checkpoint_name)
  else Except.ok ()

/-- Translation of `load_checkpoint` (lines 202-323), following the source
step order: tracker existence, tracker read + reconciliation, path
computation, blob deserialization, checkpoint-version global update,
epoch extraction, effective-iteration determination, configuration
snapshot check and consumed-counter copy, model key, optimizer step, RNG
step, and the final return.  Fatal exits and uncaught exceptions are
`Except.error`. -/
def load_checkpoint (env : LoadEnv) (args : TrainingArgs) :
    Except String LoadOutcome :=
  if env.trackerExists then
    match read_metadata env.trackerContent env.allIters with
    | Except.error e => Except.error e
    | Except.ok meta =>
      let iteration := meta.iteration
      let release := meta.release
      let checkpoint_name :=
        get_checkpoint_name env.topo args.resume_from_checkpoint iteration release false
      match env.blob with
      | none => Except.error loadFailMsg
      | some state_dict =>
        match set_checkpoint_version env.priorVersion
            ((state_dict.lookup "checkpoint_version").getD (PyVal.vnum 0)) with
        | Except.error e => Except.error e
        | Except.ok version =>
          match state_dict.lookup "epoch" with
          | none => Except.error epochKeyErrorMsg
          | some epoch =>
            let iterVal :=
              if args.finetune || release then Except.ok (PyVal.vnum 0)
              else
                match state_dict.lookup "iteration" with
                | some v => Except.ok v
                | none =>
                  match state_dict.lookup "total_iters" with
                  | some v => Except.ok v
                  | none => Except.error iterationExitMsg
            match iterVal with
            | Except.error e => Except.error e
            | Except.ok iterationRet =>
              let argsStep :=
                match state_dict.lookup "args" with
                | some (PyVal.vargs checkpoint_args) =>
                  match check_checkpoint_args checkpoint_args args with
                  | Except.error e => Except.error e
                  | Except.ok _ =>
                    Except.ok
                      ({ args with
                          consumed_train_samples := checkpoint_args.consumed_train_samples,
                          consumed_valid_samples := checkpoint_args.consumed_valid_samples },
                        ([] : List String))
                | some _ =>
                  Except.ok
                    ({ args with consumed_train_samples := 0, consumed_valid_samples := 0 },
                      ([] : List String))
                | none => Except.ok (args, [noArgsWarning])
              match argsStep with
              | Except.error e => Except.error e
              | Except.ok (args2, warns) =>
                match state_dict.lookup "model" with
                | none => Except.error modelKeyErrorMsg
                | some _ =>
                  match load_optim_step release args.finetune args.no_load_optim
                      env.haveOptimizer env.haveLrScheduler state_dict checkpoint_name with
                  | Except.error e => Except.error e
                  | Except.ok _ =>
                    match load_rng_step release args.finetune args.no_load_rng
                        state_dict checkpoint_name with
                    | Except.error e => Except.error e
                    | Except.ok _ =>
                      Except.ok ⟨LoadRet.pair iterationRet epoch, warns, version, args2⟩
  else
    Except.ok ⟨LoadRet.intOnly (PyVal.vnum 0), [noMetadataWarning], env.priorVersion, args⟩

/-! ### Claim C6: checkpoint-version write-once invariant -/

/-- C6: after `set_checkpoint_version` has stored a value, a second call
with a different value fails fatally with the version-mismatch assertion,
while a second call with the same value succeeds and leaves the stored
version unchanged. -/
theorem checkpoint_version_write_once (v v' : PyVal) :
    set_checkpoint_version none v = Except.ok (some v)
    ∧ (v' ≠ v →
        set_checkpoint_version (some v) v' =
          Except.error "checkpoint versions do not match")
    ∧ set_checkpoint_version (some v) v = Except.ok (some v) := by
  refine ⟨rfl, fun h => ?_, ?_⟩
  · simp only [set_checkpoint_version]
    rw [if_neg (fun hv => h hv.symm)]
  · simp [set_checkpoint_version]

theorem checkpoint_version_write_once_witness :
    set_checkpoint_version (some (PyVal.vnum 3)) (PyVal.vnum 0) =
      Except.error "checkpoint versions do not match" :=
  (checkpoint_version_write_once (PyVal.vnum 3) (PyVal.vnum 0)).2.1 (by decide)

/-! ### Claim C2: the configuration-mismatch check never fires -/

/-- C2 (code bug): `check_checkpoint_args` defines its `_compare` helper
but never invokes it on any field, so even when a structural field of the
snapshot differs from the current run configuration the check returns
successfully and `load_checkpoint` proceeds — contradicting the
function's own docstring and the specified fatal-mismatch behaviour. -/
theorem config_mismatch_not_fatal (checkpoint_args args : TrainingArgs)
    (h : checkpoint_args.hidden_size ≠ args.hidden_size) :
    check_checkpoint_args checkpoint_args args = Except.ok () := rfl

theorem config_mismatch_not_fatal_witness :
    check_checkpoint_args
      ⟨"out", "ckpt", false, false, false, false, false, 0, 0, 1024, 24⟩
      ⟨"out", "ckpt", false, false, false, false, false, 0, 0, 2048, 24⟩ =
      Except.ok () :=
  config_mismatch_not_fatal _ _ (by decide)

/-! ### Claim C9: unconditional entries of the saved blob -/

/-- C9: every blob assembled by `save_checkpoint` contains the
configuration snapshot under `args`, `checkpoint_version` equal to `3.0`,
`iteration`, `model` and `epoch`, whatever the `no_save_optim` and
`no_save_rng` options are. -/
theorem save_blob_unconditional_entries (args : TrainingArgs)
    (iteration epoch : ℕ) (modelState : PyVal)
    (optimizerState lrSchedulerState : Option PyVal)
    (randomRng npRng torchRng cudaRng : PyVal)
    (rngTracker : List (String × ℕ)) :
    (save_state_dict args iteration epoch modelState optimizerState
        lrSchedulerState randomRng npRng torchRng cudaRng rngTracker).lookup "args" =
          some (PyVal.vargs args)
    ∧ (save_state_dict args iteration epoch modelState optimizerState
        lrSchedulerState randomRng npRng torchRng cudaRng rngTracker).lookup "checkpoint_version" =
          some (PyVal.vnum 3)
    ∧ (save_state_dict args iteration epoch modelState optimizerState
        lrSchedulerState randomRng npRng torchRng cudaRng rngTracker).lookup "iteration" =
          some (PyVal.vnum iteration)
    ∧ (save_state_dict args iteration epoch modelState optimizerState
        lrSchedulerState randomRng npRng torchRng cudaRng rngTracker).lookup "model" =
          some modelState
    ∧ (save_state_dict args iteration epoch modelState optimizerState
        lrSchedulerState randomRng npRng torchRng cudaRng rngTracker).lookup "epoch" =
          some (PyVal.vnum epoch) :=
  ⟨rfl, rfl, rfl, rfl, rfl⟩

/-! ### Claim C10: complete mode overrides the release flag -/

/-- C10: with pipeline-parallel world size 1 and `complete = true`,
`get_checkpoint_name` ignores the release flag and always embeds the
zero-padded iteration in the directory component. -/
theorem complete_mode_ignores_release (topo : RankTopology) (root : String)
    (iteration : ℕ) (h : topo.pipeParallelWorldSize = 1) :
    (∀ r₁ r₂ : Bool,
      get_checkpoint_name topo root iteration r₁ true =
        get_checkpoint_name topo root iteration r₂ true)
    ∧ get_checkpoint_name topo root iteration true true =
        osPathJoin (osPathJoin root
          ("iter_" ++ pyFormat 7 iteration ++ "_mp_rank_" ++
            pyFormat 2 topo.tensorModelParallelRank))
          "complete_model_optim.pt" := by
  constructor
  · intro r₁ r₂
    simp [get_checkpoint_name, h]
  · simp [get_checkpoint_name, h]

theorem complete_mode_ignores_release_witness :
    get_checkpoint_name ⟨1, 0, 0, 0⟩ "ckpt" 5 true true =
      get_checkpoint_name ⟨1, 0, 0, 0⟩ "ckpt" 5 false true :=
  (complete_mode_ignores_release ⟨1, 0, 0, 0⟩ "ckpt" 5 rfl).1 true false

/-! ### Claim C4: tracker reconciliation adopts the cross-rank maximum -/

theorem reconcile_max_cons (a : ℕ) (t : List ℕ) :
    reconcile_max (a :: t) = max a (reconcile_max t) := rfl

theorem le_reconcile_max {x : ℕ} {l : List ℕ} (h : x ∈ l) : x ≤ reconcile_max l := by
  induction l with
  | nil => cases h
  | cons a t ih =>
    rw [reconcile_max_cons]
    rcases List.mem_cons.mp h with rfl | hm
    · exact le_max_left _ _
    · exact le_trans (ih hm) (le_max_right _ _)

theorem reconcile_max_mem {l : List ℕ} (h : l ≠ []) : reconcile_max l ∈ l := by
  induction l with
  | nil => exact absurd rfl h
  | cons a t ih =>
    rw [reconcile_max_cons]
    rcases t with _ | ⟨b, t'⟩
    · simp [reconcile_max]
    · rcases max_choice a (reconcile_max (b :: t')) with hc | hc
      · rw [hc]
        exact List.mem_cons_self _ _
      · rw [hc]
        exact List.mem_cons_of_mem _ (ih (by simp))

/-- C4: when rank `r` locally parses the iteration `locals.get r` from its
tracker file, `read_metadata` makes it adopt `reconcile_max locals` — an
upper bound of every rank's local value that is itself one of the local
values, i.e. the cross-rank maximum — and the replaced-iteration warning
is printed exactly when the rank's local value differs from that
maximum. -/
theorem tracker_reconciliation (locals : List ℕ) (r : Fin locals.length)
    (content : String)
    (hloc : read_metadata_local content = Except.ok (locals.get r, false)) :
    read_metadata content locals =
      Except.ok ⟨reconcile_max locals, false, locals.get r != reconcile_max locals⟩
    ∧ (∀ x ∈ locals, x ≤ reconcile_max locals)
    ∧ reconcile_max locals ∈ locals
    ∧ ((locals.get r != reconcile_max locals) = true ↔
        locals.get r ≠ reconcile_max locals) := by
  refine ⟨?_, fun x hx => le_reconcile_max hx,
    reconcile_max_mem (List.length_pos.mp (lt_of_le_of_lt (Nat.zero_le _) r.isLt)),
    bne_iff_ne⟩
  unfold read_metadata
  rw [hloc]

theorem tracker_reconciliation_witness :
    read_metadata "3" [5, 5, 3, 5] = Except.ok ⟨5, false, true⟩ := by
  have h := (tracker_reconciliation [5, 5, 3, 5] ⟨2, by decide⟩ "3" rfl).1
  exact h

/-! ### Claim C1: tracker round-trip (corrected at zero) -/

/-- C1 counterexample: the claim fails at the non-negative integer `0` —
writing `0` to the tracker and reading it back does not yield `(0, false)`
but the fatal `assert iteration > 0 or release` failure of
`read_metadata`. -/
theorem tracker_roundtrip_zero_rejected :
    read_metadata (save_tracker_content 0) (List.replicate 1 0) =
      Except.error trackerAssertMsg
    ∧ read_metadata (save_tracker_content 0) (List.replicate 1 0) ≠
        Except.ok ⟨0, false, false⟩ := by
  refine ⟨rfl, ?_⟩
  intro h
  rw [(rfl :
    read_metadata (save_tracker_content 0) (List.replicate 1 0) =
      Except.error trackerAssertMsg)] at h
  exact Except.noConfusion h

/-- C1 (amended): for every positive iteration `N`, writing `N` to the
tracker as `save_checkpoint` does and reading it back with
`read_metadata` — every one of the `k` ranks seeing the same file — yields
`(N, release = false)` with no warning; a tracker containing `0` is
instead rejected by the metadata assertion. -/
theorem tracker_roundtrip_positive (N k : ℕ) (hN : 0 < N) (hk : 0 < k) :
    read_metadata (save_tracker_content N) (List.replicate k N) =
      Except.ok ⟨N, false, false⟩ := by
  have hall := natDecimal_all_digits N
  have hlocal : read_metadata_local (save_tracker_content N) =
      Except.ok (N, false) := by
    unfold read_metadata_local save_tracker_content pyStr
    simp only [pyStrip_digits hall, pyInt_natDecimal]
    rw [if_pos (by exact_mod_cast hN)]
    simp
  have hmax : reconcile_max (List.replicate k N) = N := by
    induction k with
    | zero => omega
    | succ k ih =>
      rw [List.replicate_succ, reconcile_max_cons]
      rcases Nat.eq_zero_or_pos k with rfl | hkpos
      · simp [reconcile_max]
      · rw [ih hkpos]
        exact max_self N
  unfold read_metadata
  rw [hlocal, hmax]
  simp

theorem tracker_roundtrip_positive_witness :
    read_metadata (save_tracker_content 7) (List.replicate 2 7) =
      Except.ok ⟨7, false, false⟩ :=
  tracker_roundtrip_positive 7 2 (by decide) (by decide)

/-! ### Claim C5: checkpoint-name format, determinism and injectivity -/

theorem string_data_append (a b : String) : (a ++ b).data = a.data ++ b.data := rfl

/-- C5: `get_checkpoint_name` is deterministic; with pipeline-parallel
world size 1 and `complete = false` it returns
`root/<dir>/mp_rank_<2-digit tensor rank>/model_optim_rng.pt` with
`<dir> = "release"` when releasing and `"iter_" ++ <7-digit iteration>`
otherwise; and for a fixed root, iteration, release and complete flag,
distinct tensor-parallel rank coordinates map to distinct paths. -/
theorem checkpoint_name_format_and_injective (root : String) (iteration : ℕ)
    (release complete : Bool) (t₁ t₂ : RankTopology)
    (h₁ : t₁.pipeParallelWorldSize = 1) (h₂ : t₂.pipeParallelWorldSize = 1) :
    get_checkpoint_name t₁ root iteration release complete =
      get_checkpoint_name t₁ root iteration release complete
    ∧ get_checkpoint_name t₁ root iteration release false =
        root ++ "/" ++ (if release then "release" else "iter_" ++ pyFormat 7 iteration)
          ++ "/" ++ ("mp_rank_" ++ pyFormat 2 t₁.tensorModelParallelRank)
          ++ "/" ++ "model_optim_rng.pt"
    ∧ (t₁.tensorModelParallelRank ≠ t₂.tensorModelParallelRank → ∀ c : Bool,
        get_checkpoint_name t₁ root iteration release c ≠
          get_checkpoint_name t₂ root iteration release c) := by
  have hform : ∀ t : RankTopology, t.pipeParallelWorldSize = 1 →
      get_checkpoint_name t root iteration release false =
        root ++ "/" ++ (if release then "release" else "iter_" ++ pyFormat 7 iteration)
          ++ "/" ++ ("mp_rank_" ++ pyFormat 2 t.tensorModelParallelRank)
          ++ "/" ++ "model_optim_rng.pt" := by
    intro t ht
    simp [get_checkpoint_name, osPathJoin, ht]
  have hformc : ∀ t : RankTopology, t.pipeParallelWorldSize = 1 →
      get_checkpoint_name t root iteration release true =
        root ++ "/" ++ ("iter_" ++ pyFormat 7 iteration ++ "_mp_rank_" ++
          pyFormat 2 t.tensorModelParallelRank)
          ++ "/" ++ "complete_model_optim.pt" := by
    intro t ht
    simp [get_checkpoint_name, osPathJoin, ht]
  refine ⟨rfl, hform t₁ h₁, fun hne c heq => hne ?_⟩
  cases c
  · rw [hform t₁ h₁, hform t₂ h₂] at heq
    have hdata := congrArg String.data heq
    simp only [string_data_append, List.append_assoc] at hdata
    have e1 := List.append_cancel_left hdata
    have e2 := List.append_cancel_left e1
    have e3 := List.append_cancel_left e2
    have e4 := List.append_cancel_left e3
    have e5 := List.append_cancel_left e4
    have e6 := List.append_cancel_right e5
    exact zeroPad_natDecimal_injective e6
  · rw [hformc t₁ h₁, hformc t₂ h₂] at heq
    have hdata := congrArg String.data heq
    simp only [string_data_append, List.append_assoc] at hdata
    have e1 := List.append_cancel_left hdata
    have e2 := List.append_cancel_left e1
    have e3 := List.append_cancel_left e2
    have e4 := List.append_cancel_left e3
    have e5 := List.append_cancel_left e4
    have e6 := List.append_cancel_right e5
    exact zeroPad_natDecimal_injective e6

theorem checkpoint_name_format_and_injective_witness :
    get_checkpoint_name ⟨1, 0, 0, 0⟩ "ckpt" 3 false false ≠
      get_checkpoint_name ⟨1, 1, 0, 0⟩ "ckpt" 3 false false :=
  (checkpoint_name_format_and_injective "ckpt" 3 false false
    ⟨1, 0, 0, 0⟩ ⟨1, 1, 0, 0⟩ rfl rfl).2.2 (by decide) false

/-! ### Shared reduction of `load_checkpoint` up to the optimizer step -/

/-- When the tracker resolves to a non-release iteration, the blob
deserializes, the version global is unset, finetune is off and the blob
has `epoch`, `iteration`, `args` and `model` entries, `load_checkpoint`
reduces to its optimizer and RNG steps followed by the pair return. -/
theorem load_checkpoint_tail (env : LoadEnv) (args : TrainingArgs)
    (sd : StateDict) (N : ℕ) (w : Bool) (ev iv mv : PyVal) (ca : TrainingArgs)
    (ht : env.trackerExists = true)
    (hmeta : read_metadata env.trackerContent env.allIters = Except.ok ⟨N, false, w⟩)
    (hblob : env.blob = some sd)
    (hver : env.priorVersion = none)
    (hepoch : sd.lookup "epoch" = some ev)
    (hfin : args.finetune = false)
    (hiter : sd.lookup "iteration" = some iv)
    (hargs : sd.lookup "args" = some (PyVal.vargs ca))
    (hmodel : sd.lookup "model" = some mv) :
    load_checkpoint env args =
      match load_optim_step false args.finetune args.no_load_optim env.haveOptimizer
          env.haveLrScheduler sd
          (get_checkpoint_name env.topo args.resume_from_checkpoint N false false) with
      | Except.error e => Except.error e
      | Except.ok _ =>
        match load_rng_step false args.finetune args.no_load_rng sd
            (get_checkpoint_name env.topo args.resume_from_checkpoint N false false) with
        | Except.error e => Except.error e
        | Except.ok _ =>
          Except.ok ⟨LoadRet.pair iv ev, [],
            some ((sd.lookup "checkpoint_version").getD (PyVal.vnum 0)),
            { args with consumed_train_samples := ca.consumed_train_samples,
                        consumed_valid_samples := ca.consumed_valid_samples }⟩ := by
  simp only [load_checkpoint, ht, if_true, hmeta, hblob, hver, hepoch, hfin, hiter,
    hargs, hmodel, set_checkpoint_version, check_checkpoint_args, Bool.false_or,
    Bool.or_self, if_false]
  simp

/-! ### Claim C3: missing tracker returns a bare 0, not the pair -/

/-- C3 (code bug evidence): with no tracker file, `load_checkpoint` raises
no error, emits the missing-metadata warning and returns iteration 0 —
but as the bare integer of `return 0`, whose shape differs from the
`(iteration, epoch)` pair that every successful resume returns. -/
theorem missing_tracker_fresh_start (env : LoadEnv) (args : TrainingArgs)
    (h : env.trackerExists = false) :
    load_checkpoint env args =
      Except.ok ⟨LoadRet.intOnly (PyVal.vnum 0), [noMetadataWarning],
        env.priorVersion, args⟩
    ∧ (∀ i e : PyVal, LoadRet.intOnly (PyVal.vnum 0) ≠ LoadRet.pair i e)
    ∧ (∀ (env' : LoadEnv) (args' : TrainingArgs) (out : LoadOutcome),
        env'.trackerExists = true →
        load_checkpoint env' args' = Except.ok out →
        ∃ iv ev, out.ret = LoadRet.pair iv ev) := by
  refine ⟨?_, fun i e hcon => LoadRet.noConfusion hcon, ?_⟩
  · simp [load_checkpoint, h]
  · intro env' args' out ht hout
    simp only [load_checkpoint, ht, if_true, check_checkpoint_args] at hout
    repeat' split at hout
    all_goals
      first
      | exact Except.noConfusion hout
      | (injection hout with hh ; exact ⟨_, _, by rw [← hh]⟩)

/-! ### Claim C7: skip-optimizer save/load asymmetry -/

/-- C7: saving with `no_save_optim` produces a blob with no `optimizer`
key, and loading that blob with an optimizer present while release,
finetune and `no_load_optim` are all off fails fatally with the
remediation message pointing at `--no-load-optim` / `--finetune`. -/
theorem skip_optimizer_asymmetry
    (saveArgs loadArgs : TrainingArgs) (env : LoadEnv)
    (i e : ℕ) (mdl : PyVal) (opt lr : Option PyVal)
    (r1 r2 r3 r4 : PyVal) (trk : List (String × ℕ)) (N : ℕ) (w : Bool)
    (hsave : saveArgs.no_save_optim = true)
    (hblob : env.blob = some (save_state_dict saveArgs i e mdl opt lr r1 r2 r3 r4 trk))
    (ht : env.trackerExists = true)
    (hver : env.priorVersion = none)
    (hmeta : read_metadata env.trackerContent env.allIters = Except.ok ⟨N, false, w⟩)
    (hopt : env.haveOptimizer = true)
    (hfin : loadArgs.finetune = false)
    (hnlo : loadArgs.no_load_optim = false) :
    (save_state_dict saveArgs i e mdl opt lr r1 r2 r3 r4 trk).lookup "optimizer" = none
    ∧ load_checkpoint env loadArgs =
        Except.error (optimRemediationMsg
          (get_checkpoint_name env.topo loadArgs.resume_from_checkpoint N false false)) := by
  have hnone : (save_state_dict saveArgs i e mdl opt lr r1 r2 r3 r4 trk).lookup
      "optimizer" = none := by
    cases hr : saveArgs.no_save_rng
    · simp only [save_state_dict, hsave, hr]
      rfl
    · simp only [save_state_dict, hsave, hr]
      rfl
  refine ⟨hnone, ?_⟩
  rw [load_checkpoint_tail env loadArgs _ N w (PyVal.vnum e) (PyVal.vnum i) mdl saveArgs
    ht hmeta hblob hver rfl hfin rfl rfl rfl]
  have hstep : load_optim_step false loadArgs.finetune loadArgs.no_load_optim
      env.haveOptimizer env.haveLrScheduler
      (save_state_dict saveArgs i e mdl opt lr r1 r2 r3 r4 trk)
      (get_checkpoint_name env.topo loadArgs.resume_from_checkpoint N false false) =
      Except.error (optimRemediationMsg
        (get_checkpoint_name env.topo loadArgs.resume_from_checkpoint N false false)) := by
    simp [load_optim_step, hfin, hnlo, hopt, hnone]
  rw [hstep]

theorem skip_optimizer_asymmetry_witness :
    (save_state_dict ⟨"out", "ckpt", true, false, false, false, false, 0, 0, 1024, 24⟩
        5 1 (PyVal.vblob "model" 0) (some (PyVal.vblob "opt" 0))
        (some (PyVal.vblob "lr" 0)) (PyVal.vblob "r" 1) (PyVal.vblob "r" 2)
        (PyVal.vblob "r" 3) (PyVal.vblob "r" 4) [("default", 1)]).lookup "optimizer" = none
    ∧ load_checkpoint
        ⟨true, "5", [5],
          some (save_state_dict ⟨"out", "ckpt", true, false, false, false, false, 0, 0, 1024, 24⟩
            5 1 (PyVal.vblob "model" 0) (some (PyVal.vblob "opt" 0))
            (some (PyVal.vblob "lr" 0)) (PyVal.vblob "r" 1) (PyVal.vblob "r" 2)
            (PyVal.vblob "r" 3) (PyVal.vblob "r" 4) [("default", 1)]),
          true, true, none, ⟨1, 0, 0, 0⟩⟩
        ⟨"out", "ckpt", false, false, false, false, false, 0, 0, 1024, 24⟩ =
      Except.error (optimRemediationMsg
        (get_checkpoint_name ⟨1, 0, 0, 0⟩ "ckpt" 5 false false)) :=
  skip_optimizer_asymmetry _ _ _ _ _ _ _ _ _ _ _ _ _ _ _
    rfl rfl rfl rfl rfl rfl rfl rfl

/-! ### Claim C8: empty RNG-tracker mapping is treated like a missing key -/

/-- C8: with release, finetune and `no_load_rng` all off, a blob whose
`rng_tracker_states` entry is an empty mapping is treated by
`load_checkpoint` exactly like a blob missing an RNG key: both are fatal
with the same remediation message, so no partial RNG restore outcome is
ever returned. -/
theorem rng_empty_like_missing
    (loadArgs : TrainingArgs) (env : LoadEnv) (sd : StateDict)
    (N : ℕ) (w : Bool) (ev iv mv : PyVal) (ca : TrainingArgs)
    (ht : env.trackerExists = true)
    (hmeta : read_metadata env.trackerContent env.allIters = Except.ok ⟨N, false, w⟩)
    (hblob : env.blob = some sd)
    (hver : env.priorVersion = none)
    (hepoch : sd.lookup "epoch" = some ev)
    (hfin : loadArgs.finetune = false)
    (hnlr : loadArgs.no_load_rng = false)
    (hiter : sd.lookup "iteration" = some iv)
    (hargs : sd.lookup "args" = some (PyVal.vargs ca))
    (hmodel : sd.lookup "model" = some mv)
    (hoptstep : load_optim_step false loadArgs.finetune loadArgs.no_load_optim
        env.haveOptimizer env.haveLrScheduler sd
        (get_checkpoint_name env.topo loadArgs.resume_from_checkpoint N false false) =
        Except.ok ())
    (htrk : sd.lookup "rng_tracker_states" = none ∨
        sd.lookup "rng_tracker_states" = some (PyVal.vmap [])) :
    load_rng_step false loadArgs.finetune loadArgs.no_load_rng sd
        (get_checkpoint_name env.topo loadArgs.resume_from_checkpoint N false false) =
      Except.error (rngRemediationMsg
        (get_checkpoint_name env.topo loadArgs.resume_from_checkpoint N false false))
    ∧ load_checkpoint env loadArgs =
        Except.error (rngRemediationMsg
          (get_checkpoint_name env.topo loadArgs.resume_from_checkpoint N false false)) := by
  have hc3 : (!false && !loadArgs.finetune && !loadArgs.no_load_rng) = true := by
    rw [hfin, hnlr]
    rfl
  have hrng : load_rng_step false loadArgs.finetune loadArgs.no_load_rng sd
      (get_checkpoint_name env.topo loadArgs.resume_from_checkpoint N false false) =
      Except.error (rngRemediationMsg
        (get_checkpoint_name env.topo loadArgs.resume_from_checkpoint N false false)) := by
    unfold load_rng_step
    rw [if_pos hc3]
    by_cases hc : ((sd.lookup "random_rng_state").isNone
        || (sd.lookup "np_rng_state").isNone
        || (sd.lookup "torch_rng_state").isNone
        || (sd.lookup "cuda_rng_state").isNone) = true
    · rw [if_pos hc]
    · rw [if_neg hc]
      rcases htrk with h | h <;> rw [h]
      rfl
  refine ⟨hrng, ?_⟩
  rw [load_checkpoint_tail env loadArgs sd N w ev iv mv ca
    ht hmeta hblob hver hepoch hfin hiter hargs hmodel, hoptstep, hrng]

theorem rng_empty_like_missing_witness :
    load_checkpoint
      ⟨true, "5", [5],
        some [("args", PyVal.vargs ⟨"out", "ckpt", false, false, false, false, false, 0, 0, 1024, 24⟩),
              ("checkpoint_version", PyVal.vnum 3),
              ("iteration", PyVal.vnum 5),
              ("model", PyVal.vblob "model" 0),
              ("epoch", PyVal.vnum 1),
              ("optimizer", PyVal.vblob "opt" 0),
              ("lr_scheduler", PyVal.vblob "lr" 0),
              ("random_rng_state", PyVal.vblob "r" 1),
              ("np_rng_state", PyVal.vblob "r" 2),
              ("torch_rng_state", PyVal.vblob "r" 3),
              ("cuda_rng_state", PyVal.vblob "r" 4),
              ("rng_tracker_states", PyVal.vmap [])],
        true, true, none, ⟨1, 0, 0, 0⟩⟩
      ⟨"out", "ckpt", false, false, false, false, false, 0, 0, 1024, 24⟩ =
      Except.error (rngRemediationMsg
        (get_checkpoint_name ⟨1, 0, 0, 0⟩ "ckpt" 5 false false)) := by
  have h := rng_empty_like_missing
    ⟨"out", "ckpt", false, false, false, false, false, 0, 0, 1024, 24⟩
    ⟨true, "5", [5],
      some [("args", PyVal.vargs ⟨"out", "ckpt", false, false, false, false, false, 0, 0, 1024, 24⟩),
            ("checkpoint_version", PyVal.vnum 3),
            ("iteration", PyVal.vnum 5),
            ("model", PyVal.vblob "model" 0),
            ("epoch", PyVal.vnum 1),
            ("optimizer", PyVal.vblob "opt" 0),
            ("lr_scheduler", PyVal.vblob "lr" 0),
            ("random_rng_state", PyVal.vblob "r" 1),
            ("np_rng_state", PyVal.vblob "r" 2),
            ("torch_rng_state", PyVal.vblob "r" 3),
            ("cuda_rng_state", PyVal.vblob "r" 4),
            ("rng_tracker_states", PyVal.vmap [])],
      true, true, none, ⟨1, 0, 0, 0⟩⟩
    [("args", PyVal.vargs ⟨"out", "ckpt", false, false, false, false, false, 0, 0, 1024, 24⟩),
     ("checkpoint_version", PyVal.vnum 3),
     ("iteration", PyVal.vnum 5),
     ("model", PyVal.vblob "model" 0),
     ("epoch", PyVal.vnum 1),
     ("optimizer", PyVal.vblob "opt" 0),
     ("lr_scheduler", PyVal.vblob "lr" 0),
     ("random_rng_state", PyVal.vblob "r" 1),
     ("np_rng_state", PyVal.vblob "r" 2),
     ("torch_rng_state", PyVal.vblob "r" 3),
     ("cuda_rng_state", PyVal.vblob "r" 4),
     ("rng_tracker_states", PyVal.vmap [])]
    5 false (PyVal.vnum 1) (PyVal.vnum 5) (PyVal.vblob "model" 0)
    ⟨"out", "ckpt", false, false, false, false, false, 0, 0, 1024, 24⟩
    rfl rfl rfl rfl rfl rfl rfl rfl rfl rfl rfl (Or.inr rfl)
  exact h.2

theorem missing_tracker_fresh_start_witness :
    load_checkpoint ⟨false, "", [], none, false, false, none, ⟨1, 0, 0, 0⟩⟩
      ⟨"out", "ckpt", false, false, false, false, false, 0, 0, 1024, 24⟩ =
      Except.ok ⟨LoadRet.intOnly (PyVal.vnum 0), [noMetadataWarning], none,
        ⟨"out", "ckpt", false, false, false, false, false, 0, 0, 1024, 24⟩⟩ :=
  (missing_tracker_fresh_start
    ⟨false, "", [], none, false, false, none, ⟨1, 0, 0, 0⟩⟩
    ⟨"out", "ckpt", false, false, false, false, false, 0, 0, 1024, 24⟩ rfl).1

end Merak
